import Mathlib

/-!
Shallow embedding of `src/app.py` (code-comment-generator).

The Python source is a Streamlit app whose core is four functions:
`load_models` (lazy, `st.cache_resource`-memoized construction of a
`genai.GenerativeModel` handle from the `GOOGLE_API_KEY` secret),
`generate_prompt` (a pure f-string prompt builder), `generative_config`
(maps the "Low"/"High" creativity radio selection to a generation-config
dict), and `get_gemini_response` (orchestrates the model call with fixed
safety settings and catches exceptions).

Effects are made explicit: the secrets source is a parameter
(`SecretsResult`: the key was found, the key was absent — Python
`KeyError` —, or some other exception was raised inside the `try` block),
the `st.cache_resource` memoization is explicit state (`CacheState`),
the model invocation is an oracle parameter (`InvokeResult`), and every
`st.error` call is recorded in a `displayed` list.  Python `return None`
becomes `Option.none`; returning a string becomes `Option.some`.
-/

namespace App

/-- Harm categories imported from `google.generativeai.types` and used in
`get_gemini_response`. -/
inductive HarmCategory where
  | HARM_CATEGORY_HARASSMENT
  | HARM_CATEGORY_HATE_SPEECH
  | HARM_CATEGORY_SEXUALLY_EXPLICIT
  | HARM_CATEGORY_DANGEROUS_CONTENT
deriving DecidableEq, Repr

/-- Block thresholds of the `google.generativeai.types` library; the source
only ever uses `BLOCK_NONE`. -/
inductive HarmBlockThreshold where
  | BLOCK_NONE
  | BLOCK_ONLY_HIGH
  | BLOCK_MEDIUM_AND_ABOVE
  | BLOCK_LOW_AND_ABOVE
deriving DecidableEq, Repr

/-- A constructed `genai.GenerativeModel` handle, identified by the model
name it was constructed with (`genai.GenerativeModel('gemini-pro')`). -/
structure GenerativeModel where
  model_name : String
deriving DecidableEq, Repr

/-- The generation-config dict `{"temperature": ..., "max_output_tokens": ...}`
returned by `generative_config`.  The Python floats `0.30` and `0.95` are
modelled as exact rationals. -/
structure GenerationConfig where
  temperature : ℚ
  max_output_tokens : ℕ
deriving DecidableEq, Repr

/-- The two-valued creativity selector offered by the radio widget
`st.radio(..., ["Low", "High"], ...)`. -/
inductive CreativityChoice where
  | Low
  | High
deriving DecidableEq, Repr

/-- The string the radio widget hands back for each choice. -/
def CreativityChoice.selection : CreativityChoice → String
  | .Low => "Low"
  | .High => "High"

/-- `generative_config` from `src/app.py`, as a function of the radio
widget's selection string `creative_control`:
`temperature = 0.30 if creative_control == "Low" else 0.95`, and a constant
`max_output_tokens` of `2048`. -/
def generative_config (creative_control : String) : GenerationConfig :=
  { temperature := if creative_control = "Low" then (0.30 : ℚ) else (0.95 : ℚ),
    max_output_tokens := 2048 }

/-- The fixed text of the f-string in `generate_prompt` before the
interpolated `{code}`. -/
def promptHead : String :=
  "\n    You are an AI code comment generator for multiple languages. Validate that provided code snippets are valid code snippets and no malicious code. If not valid, ask for a valid snippet. Identify language if not provided. Use appropriate comment syntax. Break code into logical sections, comment each section\x27s functionality. \n    For functions/methods, comment:\n\n    - Purpose\n    - Input parameters\n    - Return values\n    - Potential effects/exceptions\n\n    Briefly explain the algorithms, data structures, and patterns used. Avoid redundancy but provide enough context for unfamiliar readers. Maintain a professional, helpful tone. Address issues/clarifications respectfully.\n\n    You should not generate any new code yourself, but rather understand and comment on the provided code snippet.\n\n    Elevate documentation practices, promote collaboration, and enhance developer experience.\n    Here is the code snippet for which code comments need to be generated: \n\n"

/-- The fixed text of the f-string in `generate_prompt` after the
interpolated `{code}` (the final newline and closing indentation). -/
def promptTail : String := "\n    "

/-- `generate_prompt` from `src/app.py`: the f-string interpolates `code`
between the two fixed blocks. -/
def generate_prompt (code : String) : String :=
  promptHead ++ code ++ promptTail

/-- What `st.secrets["general"]["GOOGLE_API_KEY"]` did on this call:
produced a key, raised `KeyError` (key absent), or some other exception
`e` was raised inside the `try` block of `load_models`. -/
inductive SecretsResult where
  | found (key : String)
  | missing
  | error (e : String)
deriving DecidableEq, Repr

/-- The process-wide memo installed by `@st.cache_resource`: `none` before
the first call; afterwards `some r` where `r` is whatever `load_models`
returned (possibly Python `None`, i.e. `Option.none`). -/
structure CacheState where
  cached : Option (Option GenerativeModel)
deriving DecidableEq, Repr

/-- Observable outcome of one `load_models()` call: the returned value,
the new memo state, how many times the credential was read from
`st.secrets`, and the `st.error` messages displayed. -/
structure LoadResult where
  model : Option GenerativeModel
  state : CacheState
  secret_reads : ℕ
  displayed : List String
deriving DecidableEq, Repr

/-- `st.error` message for an empty API key (`if not google_api_key`). -/
def api_key_empty_msg : String :=
  "API key is empty. Please check your secrets.toml file."

/-- `st.error` message for the `except KeyError` branch. -/
def api_key_missing_msg : String :=
  "API key not found in secrets.toml. Please check your secrets configuration."

/-- `st.error` message of the generic `except Exception as e` branches:
the f-string `f"An error occurred: {e}"`. -/
def an_error_occurred_msg (e : String) : String :=
  "An error occurred: " ++ e

/-- The body of `load_models` in `src/app.py` (what runs on a cache miss):
read the key; if empty, display an error and return `None`; otherwise
configure the client and build `genai.GenerativeModel('gemini-pro')`;
`except KeyError` and `except Exception` each display their own error and
return `None`. -/
def load_models_body (secrets : SecretsResult) : Option GenerativeModel × List String :=
  match secrets with
  | .found key =>
      if key = "" then (none, [api_key_empty_msg])
      else (some { model_name := "gemini-pro" }, [])
  | .missing => (none, [api_key_missing_msg])
  | .error e => (none, [an_error_occurred_msg e])

/-- `load_models` from `src/app.py` including its `@st.cache_resource`
decorator: on a hit the memoized return value comes back with no secret
read and no display; on a miss the body runs once and its return value is
memoized. -/
def load_models (s : CacheState) (secrets : SecretsResult) : LoadResult :=
  match s.cached with
  | some v => { model := v, state := s, secret_reads := 0, displayed := [] }
  | none =>
      let r := load_models_body secrets
      { model := r.1, state := { cached := some r.1 }, secret_reads := 1, displayed := r.2 }

/-- The fixed string `get_gemini_response` returns when `load_models`
produced no model. -/
def model_not_loaded_msg : String :=
  "Model not loaded properly. Check your API key and configuration."

/-- The `safety_settings` dict built in `get_gemini_response`: all four
harm categories mapped to `BLOCK_NONE`. -/
def safety_settings : List (HarmCategory × HarmBlockThreshold) :=
  [(HarmCategory.HARM_CATEGORY_HARASSMENT, HarmBlockThreshold.BLOCK_NONE),
   (HarmCategory.HARM_CATEGORY_HATE_SPEECH, HarmBlockThreshold.BLOCK_NONE),
   (HarmCategory.HARM_CATEGORY_SEXUALLY_EXPLICIT, HarmBlockThreshold.BLOCK_NONE),
   (HarmCategory.HARM_CATEGORY_DANGEROUS_CONTENT, HarmBlockThreshold.BLOCK_NONE)]

/-- One call to `model.generate_content(prompt, generation_config=config,
safety_settings=safety_settings)`: the arguments that crossed the model
boundary. -/
structure Invocation where
  prompt : String
  generation_config : GenerationConfig
  safety : List (HarmCategory × HarmBlockThreshold)
deriving DecidableEq, Repr

/-- Oracle for what `model.generate_content` would do on this call:
return a response whose `.text` is `text`, or raise an exception `e`. -/
inductive InvokeResult where
  | success (text : String)
  | raise (e : String)
deriving DecidableEq, Repr

/-- Observable outcome of one `get_gemini_response` call: its Python
return value (`none` models `return None`), the model invocations it
attempted, the `st.error` messages displayed, and the memo state after
the call. -/
structure GenResponse where
  result : Option String
  invocations : List Invocation
  displayed : List String
  state : CacheState
deriving DecidableEq, Repr

/-- `get_gemini_response` from `src/app.py`: build the prompt, call
`load_models`; if a model came back, invoke it with the prompt, the given
config and the fixed `safety_settings`, returning `response.text`; if the
invocation raises, display `f"An error occurred: {e}"` and return `None`;
if no model came back, return `model_not_loaded_msg` without invoking. -/
def get_gemini_response (code : String) (config : GenerationConfig)
    (s : CacheState) (secrets : SecretsResult) (invoke : InvokeResult) : GenResponse :=
  let prompt := generate_prompt code
  let lr := load_models s secrets
  match lr.model with
  | some _ =>
      match invoke with
      | .success t =>
          { result := some t,
            invocations := [{ prompt := prompt, generation_config := config, safety := safety_settings }],
            displayed := lr.displayed,
            state := lr.state }
      | .raise e =>
          { result := none,
            invocations := [{ prompt := prompt, generation_config := config, safety := safety_settings }],
            displayed := lr.displayed ++ [an_error_occurred_msg e],
            state := lr.state }
  | none =>
      { result := some model_not_loaded_msg,
        invocations := [],
        displayed := lr.displayed,
        state := lr.state }

end App

namespace App

/-! ## Helper lemmas -/

/-- The generic exception message never equals the missing-key message,
whatever the exception text: they already differ within the first
19 characters. -/
theorem an_error_occurred_ne_missing (e : String) :
    an_error_occurred_msg e ≠ api_key_missing_msg := by
  intro h
  have hd : ("An error occurred: " : String).data ++ e.data = api_key_missing_msg.data := by
    simpa [an_error_occurred_msg, String.data_append] using congrArg String.data h
  have h19 := congrArg (List.take 19) hd
  rw [show (19 : ℕ) = ("An error occurred: " : String).data.length from rfl,
    List.take_left] at h19
  exact absurd h19 (by decide)

/-! ## Claims -/

/-- Claim C1: for every CreativityChoice, `generative_config` returns
`max_output_tokens = 2048`, and temperature 0.30 for Low and 0.95 for
High, exactly. -/
theorem c1_resolveConfig_mapping :
    (∀ c : CreativityChoice, (generative_config c.selection).max_output_tokens = 2048) ∧
    (generative_config CreativityChoice.Low.selection).temperature = (0.30 : ℚ) ∧
    (generative_config CreativityChoice.High.selection).temperature = (0.95 : ℚ) := by
  refine ⟨fun c => by cases c <;> rfl, ?_, ?_⟩
  · show (if ("Low" : String) = "Low" then (0.30 : ℚ) else (0.95 : ℚ)) = (0.30 : ℚ)
    rw [if_pos rfl]
  · show (if ("High" : String) = "Low" then (0.30 : ℚ) else (0.95 : ℚ)) = (0.95 : ℚ)
    rw [if_neg (by decide)]

/-- Claim C2: the output of `generate_prompt` contains the input code
verbatim and unmodified as a substring. -/
theorem c2_prompt_contains_code (code : String) :
    ∃ p s : List Char, (generate_prompt code).data = p ++ code.data ++ s :=
  ⟨promptHead.data, promptTail.data, by
    simp [generate_prompt, String.data_append]⟩

/-- Claim C3: when the model is loaded and the invocation raises any
exception, `get_gemini_response` returns the absence marker (no uncaught
exception) and displays a message carrying the description of the
underlying error. -/
theorem c3_invocation_error_handled (code : String) (config : GenerationConfig)
    (s : CacheState) (secrets : SecretsResult) (e : String)
    (h : (load_models s secrets).model.isSome) :
    (get_gemini_response code config s secrets (.raise e)).result = none ∧
    an_error_occurred_msg e ∈ (get_gemini_response code config s secrets (.raise e)).displayed := by
  obtain ⟨m, hm⟩ := Option.isSome_iff_exists.mp h
  simp [get_gemini_response, hm]

/-- Claim C3 witness at concrete inputs. -/
theorem c3_invocation_error_handled_witness :
    (load_models ⟨some (some { model_name := "gemini-pro" })⟩ (.found "k")).model.isSome ∧
    (get_gemini_response "x" (generative_config "High")
        ⟨some (some { model_name := "gemini-pro" })⟩ (.found "k") (.raise "boom")).result = none ∧
    an_error_occurred_msg "boom" ∈ (get_gemini_response "x" (generative_config "High")
        ⟨some (some { model_name := "gemini-pro" })⟩ (.found "k") (.raise "boom")).displayed :=
  ⟨rfl, c3_invocation_error_handled "x" (generative_config "High")
    ⟨some (some { model_name := "gemini-pro" })⟩ (.found "k") "boom" rfl⟩

/-- Claim C4: when no model handle is available, `get_gemini_response`
returns the fixed "model not loaded" message and attempts no model
invocation. -/
theorem c4_model_not_loaded_short_circuit (code : String) (config : GenerationConfig)
    (s : CacheState) (secrets : SecretsResult) (invoke : InvokeResult)
    (h : (load_models s secrets).model = none) :
    (get_gemini_response code config s secrets invoke).result = some model_not_loaded_msg ∧
    (get_gemini_response code config s secrets invoke).invocations = [] := by
  simp [get_gemini_response, h]

/-- Claim C4 witness at concrete inputs. -/
theorem c4_model_not_loaded_short_circuit_witness :
    (load_models ⟨none⟩ .missing).model = none ∧
    (get_gemini_response "x" (generative_config "Low") ⟨none⟩ .missing (.success "t")).result
      = some model_not_loaded_msg ∧
    (get_gemini_response "x" (generative_config "Low") ⟨none⟩ .missing (.success "t")).invocations
      = [] :=
  ⟨rfl, c4_model_not_loaded_short_circuit "x" (generative_config "Low") ⟨none⟩ .missing
    (.success "t") rfl⟩

/-- Claim C5: `load_models` distinguishes its failure kinds: missing key,
empty key and generic error each produce their own diagnostic, the
missing-key and empty-key messages differ, and the generic message never
coincides with the missing-key message. -/
theorem c5_load_models_failure_kinds :
    ((load_models ⟨none⟩ .missing).model = none ∧
      (load_models ⟨none⟩ .missing).displayed = [api_key_missing_msg]) ∧
    ((load_models ⟨none⟩ (.found "")).model = none ∧
      (load_models ⟨none⟩ (.found "")).displayed = [api_key_empty_msg]) ∧
    (∀ e, (load_models ⟨none⟩ (.error e)).model = none ∧
      (load_models ⟨none⟩ (.error e)).displayed = [an_error_occurred_msg e]) ∧
    api_key_missing_msg ≠ api_key_empty_msg ∧
    (∀ e, an_error_occurred_msg e ≠ api_key_missing_msg) :=
  ⟨⟨rfl, rfl⟩, ⟨rfl, rfl⟩, fun _ => ⟨rfl, rfl⟩, by decide, an_error_occurred_ne_missing⟩

/-- Claim C6: the safety policy is the fixed map of exactly the four harm
categories to BLOCK_NONE, and every invocation made by
`get_gemini_response`, for every input, carries exactly that policy. -/
theorem c6_safety_policy_invariant :
    (safety_settings.map Prod.fst =
      [HarmCategory.HARM_CATEGORY_HARASSMENT, HarmCategory.HARM_CATEGORY_HATE_SPEECH,
       HarmCategory.HARM_CATEGORY_SEXUALLY_EXPLICIT, HarmCategory.HARM_CATEGORY_DANGEROUS_CONTENT]) ∧
    (∀ p ∈ safety_settings, p.2 = HarmBlockThreshold.BLOCK_NONE) ∧
    ∀ (code : String) (config : GenerationConfig) (s : CacheState)
      (secrets : SecretsResult) (invoke : InvokeResult),
      ∀ inv ∈ (get_gemini_response code config s secrets invoke).invocations,
        inv.safety = safety_settings := by
  refine ⟨rfl, by decide, ?_⟩
  intro code config s secrets invoke inv hinv
  rcases hm : (load_models s secrets).model with _ | m <;> rcases invoke with t | e <;>
    simp [get_gemini_response, hm] at hinv <;> simp [hinv]

/-- Claim C6 witness at concrete inputs. -/
theorem c6_safety_policy_invariant_witness :
    ({ prompt := generate_prompt "x", generation_config := generative_config "Low",
       safety := safety_settings } : Invocation).safety = safety_settings :=
  c6_safety_policy_invariant.2.2 "x" (generative_config "Low")
    ⟨some (some { model_name := "gemini-pro" })⟩ (.found "k") (.success "t")
    { prompt := generate_prompt "x", generation_config := generative_config "Low",
      safety := safety_settings }
    (List.Mem.head _)

/-- Claim C7: with a present, non-empty credential, `load_models` builds
the gemini-pro handle once; every later call returns the same cached
handle with zero credential reads. -/
theorem c7_model_memoized (k : String) (h : k ≠ "") :
    (load_models ⟨none⟩ (.found k)).model = some { model_name := "gemini-pro" } ∧
    ∀ secrets2 : SecretsResult,
      load_models (load_models ⟨none⟩ (.found k)).state secrets2 =
        { model := some { model_name := "gemini-pro" },
          state := (load_models ⟨none⟩ (.found k)).state,
          secret_reads := 0, displayed := [] } := by
  constructor
  · simp [load_models, load_models_body, h]
  · intro s2
    simp [load_models, load_models_body, h]

/-- Claim C7 witness at concrete inputs. -/
theorem c7_model_memoized_witness :
    ("my-key" : String) ≠ "" ∧
    load_models (load_models ⟨none⟩ (.found "my-key")).state .missing =
      { model := some { model_name := "gemini-pro" },
        state := (load_models ⟨none⟩ (.found "my-key")).state,
        secret_reads := 0, displayed := [] } :=
  ⟨by decide, (c7_model_memoized "my-key" (by decide)).2 .missing⟩

/-- Claim C8: `generate_prompt` is pure and total: equal inputs give
identical outputs, and on the empty string it still returns the whole
instruction block (head and tail concatenated), which is non-empty. -/
theorem c8_prompt_pure_total :
    (∀ x y : String, x = y → generate_prompt x = generate_prompt y) ∧
    generate_prompt "" = promptHead ++ promptTail ∧
    (generate_prompt "").data ≠ [] := by
  refine ⟨fun x y hxy => by rw [hxy], by simp [generate_prompt], ?_⟩
  intro h
  rw [show generate_prompt "" = promptHead ++ promptTail by simp [generate_prompt],
    String.data_append] at h
  exact absurd (List.append_eq_nil.mp h).2 (by decide)

/-- Claim C8 witness at concrete inputs. -/
theorem c8_prompt_pure_total_witness :
    generate_prompt "print(1)" = generate_prompt "print(1)" :=
  c8_prompt_pure_total.1 "print(1)" "print(1)" rfl

/-- Claim C9: every selection string other than "Low" — not only "High" —
takes the catch-all else branch: temperature 0.95 and
max_output_tokens 2048. -/
theorem c9_config_catch_all (s : String) (h : s ≠ "Low") :
    generative_config s = { temperature := (0.95 : ℚ), max_output_tokens := 2048 } := by
  simp [generative_config, h]

/-- Claim C9 witness at a selection string that is neither "Low" nor "High". -/
theorem c9_config_catch_all_witness :
    ("Medium" : String) ≠ "Low" ∧
    generative_config "Medium" = { temperature := (0.95 : ℚ), max_output_tokens := 2048 } :=
  ⟨by decide, c9_config_catch_all "Medium" (by decide)⟩

/-- Claim C10: `get_gemini_response` returns the absence marker `none`
exactly when the model was loaded and the invocation raised; the
model-not-loaded case and the success case both return a plain string
through the same `some` channel, so the fixed message is
type-indistinguishable from model output. -/
theorem c10_return_channels (code : String) (config : GenerationConfig)
    (s : CacheState) (secrets : SecretsResult) (invoke : InvokeResult) :
    ((get_gemini_response code config s secrets invoke).result = none ↔
      (load_models s secrets).model.isSome ∧ ∃ e, invoke = .raise e) ∧
    ((load_models s secrets).model = none →
      (get_gemini_response code config s secrets invoke).result = some model_not_loaded_msg) ∧
    (∀ t m, (load_models s secrets).model = some m → invoke = .success t →
      (get_gemini_response code config s secrets invoke).result = some t) := by
  rcases hm : (load_models s secrets).model with _ | m <;> rcases invoke with t | e <;>
    simp [get_gemini_response, hm]

/-- Claim C10 witness at concrete inputs. -/
theorem c10_return_channels_witness :
    (get_gemini_response "x" (generative_config "Low")
        ⟨some (some { model_name := "gemini-pro" })⟩ (.found "k") (.success "hello")).result
      = some "hello" :=
  (c10_return_channels "x" (generative_config "Low")
      ⟨some (some { model_name := "gemini-pro" })⟩ (.found "k") (.success "hello")).2.2
    "hello" { model_name := "gemini-pro" } rfl rfl

end App
